import Mathlib

/-!
Verification of the Rubik's cube facelet model, move engine, edge locator and
white-cross solver of the `rubikcube` repository (rubiksCube.js / solver.js).

The cube state is six faces of nine sticker characters each, in the source's
face order F, R, U, B, L, D with colors r, g, y, o, b, w.  Moves are modelled
exactly as the source implements them: a 3x3 face rotation plus a cycling of
four 3-sticker bands on the adjacent faces, dispatched on the 12 move symbol
strings.  The budgeted white-cross solver of solver.js is modelled as a pure
state-passing function emitting solution steps.
-/

namespace RubiksCube

inductive Face where
  | F | R | U | B | L | D
deriving DecidableEq, Repr

open Face

/-- The identity color of each face, from the constructor's `colors` map:
F=r, R=g, U=y, B=o, L=b, D=w. -/
def colorsOf : Face → Char
  | F => 'r'
  | R => 'g'
  | U => 'y'
  | B => 'o'
  | L => 'b'
  | D => 'w'

/-- The mutable cube state `this.state`: each face is a list of 9 sticker
color characters, row-major. -/
structure Cube where
  f : List Char
  r : List Char
  u : List Char
  b : List Char
  l : List Char
  d : List Char
deriving DecidableEq, Repr

def Cube.face (c : Cube) : Face → List Char
  | F => c.f
  | R => c.r
  | U => c.u
  | B => c.b
  | L => c.l
  | D => c.d

def Cube.setFace (c : Cube) (fk : Face) (xs : List Char) : Cube :=
  match fk with
  | F => { c with f := xs }
  | R => { c with r := xs }
  | U => { c with u := xs }
  | B => { c with b := xs }
  | L => { c with l := xs }
  | D => { c with d := xs }

/-- Read `this.state[fk][i]`. -/
def Cube.get (c : Cube) (fk : Face) (i : Nat) : Char :=
  (c.face fk).getD i ' '

/-- Write `this.state[fk][i] = v`. -/
def Cube.set (c : Cube) (fk : Face) (i : Nat) (v : Char) : Cube :=
  c.setFace fk ((c.face fk).set i v)

/-- The freshly constructed solved state: every face filled with its
identity color. -/
def solvedCube : Cube :=
  { f := List.replicate 9 (colorsOf F)
    r := List.replicate 9 (colorsOf R)
    u := List.replicate 9 (colorsOf U)
    b := List.replicate 9 (colorsOf B)
    l := List.replicate 9 (colorsOf L)
    d := List.replicate 9 (colorsOf D) }

/-- `_rotateFace`: the in-place 90-degree rotation of one face's 9 stickers. -/
def rotateFaceList (face : List Char) (clockwise : Bool) : List Char :=
  let g := fun i => face.getD i ' '
  if clockwise then
    [g 6, g 3, g 0, g 7, g 4, g 1, g 8, g 5, g 2]
  else
    [g 2, g 5, g 8, g 1, g 4, g 7, g 0, g 3, g 6]

def rotateFace (c : Cube) (fk : Face) (clockwise : Bool) : Cube :=
  c.setFace fk (rotateFaceList (c.face fk) clockwise)

/-- `_shiftEdges`: extract the stickers of the listed (face, indices) groups
into `temp`, rotate `temp` by one group (clockwise moves the last group to the
front, counter-clockwise moves the first group to the back), and write the
result back over the same positions in order. -/
def shiftEdges (c : Cube) (edges : List (Face × List Nat)) (clockwise : Bool) : Cube :=
  let temp := (edges.map (fun e => e.2.map (fun i => c.get e.1 i))).flatten
  let temp2 :=
    if clockwise then
      let n := ((edges.getLast?).map (fun e => e.2.length)).getD 0
      temp.drop (temp.length - n) ++ temp.take (temp.length - n)
    else
      let n := ((edges.head?).map (fun e => e.2.length)).getD 0
      temp.drop n ++ temp.take n
  let positions := (edges.map (fun e => e.2.map (fun i => (e.1, i)))).flatten
  (positions.zip temp2).foldl (fun acc pv => acc.set pv.1.1 pv.1.2 pv.2) c

/-- `_U`, with the source's edge band `F[0,1,2], R[0,1,2], B[0,1,2], L[0,1,2]`. -/
def moveU (c : Cube) (clockwise : Bool) : Cube :=
  shiftEdges (rotateFace c U clockwise)
    [(F, [0, 1, 2]), (R, [0, 1, 2]), (B, [0, 1, 2]), (L, [0, 1, 2])] clockwise

/-- `_D`, with band `F[6,7,8], L[6,7,8], B[6,7,8], R[6,7,8]`. -/
def moveD (c : Cube) (clockwise : Bool) : Cube :=
  shiftEdges (rotateFace c D clockwise)
    [(F, [6, 7, 8]), (L, [6, 7, 8]), (B, [6, 7, 8]), (R, [6, 7, 8])] clockwise

/-- `_L`, with band `U[0,3,6], F[0,3,6], D[0,3,6], B[8,5,2]`. -/
def moveL (c : Cube) (clockwise : Bool) : Cube :=
  shiftEdges (rotateFace c L clockwise)
    [(U, [0, 3, 6]), (F, [0, 3, 6]), (D, [0, 3, 6]), (B, [8, 5, 2])] clockwise

/-- `_R`, with band `U[2,5,8], B[6,3,0], D[2,5,8], F[2,5,8]`. -/
def moveR (c : Cube) (clockwise : Bool) : Cube :=
  shiftEdges (rotateFace c R clockwise)
    [(U, [2, 5, 8]), (B, [6, 3, 0]), (D, [2, 5, 8]), (F, [2, 5, 8])] clockwise

/-- `_F`, with band `U[6,7,8], R[0,3,6], D[0,1,2], L[2,5,8]`. -/
def moveF (c : Cube) (clockwise : Bool) : Cube :=
  shiftEdges (rotateFace c F clockwise)
    [(U, [6, 7, 8]), (R, [0, 3, 6]), (D, [0, 1, 2]), (L, [2, 5, 8])] clockwise

/-- `_B`, with band `U[0,1,2], L[0,3,6], D[6,7,8], R[2,5,8]`. -/
def moveB (c : Cube) (clockwise : Bool) : Cube :=
  shiftEdges (rotateFace c B clockwise)
    [(U, [0, 1, 2]), (L, [0, 3, 6]), (D, [6, 7, 8]), (R, [2, 5, 8])] clockwise

/-- The 12 recognized move symbols, in the order of `scramble`'s move table. -/
def validMoves : List String :=
  ["U", "U_PRIME", "D", "D_PRIME", "L", "L_PRIME",
   "R", "R_PRIME", "F", "F_PRIME", "B", "B_PRIME"]

/-- The state effect of `manualRotate`'s switch: dispatch the move symbol to
one of the 12 rotations; the default case leaves the state unchanged. -/
def applyMove (c : Cube) (m : String) : Cube :=
  if m = "U" then moveU c true
  else if m = "U_PRIME" then moveU c false
  else if m = "D" then moveD c true
  else if m = "D_PRIME" then moveD c false
  else if m = "L" then moveL c true
  else if m = "L_PRIME" then moveL c false
  else if m = "R" then moveR c true
  else if m = "R_PRIME" then moveR c false
  else if m = "F" then moveF c true
  else if m = "F_PRIME" then moveF c false
  else if m = "B" then moveB c true
  else if m = "B_PRIME" then moveB c false
  else c

/-- `manualRotate(move, record)`: the move symbol is pushed onto the history
before the switch whenever `record` is true, then the switch mutates the
state (or, for an unrecognized symbol, only warns). Returns the new state
paired with the new history. -/
def manualRotate (c : Cube) (history : List String) (move : String) (record : Bool) :
    Cube × List String :=
  (applyMove c move, if record then history ++ [move] else history)

/-- Apply a sequence of move symbols in order. -/
def applyMoves (c : Cube) (ms : List String) : Cube :=
  ms.foldl applyMove c

/-- `toColorString` as a character list: faces concatenated in order
F, R, U, B, L, D. -/
def toColorList (c : Cube) : List Char :=
  c.f ++ c.r ++ c.u ++ c.b ++ c.l ++ c.d

/-- `isSolved()`: every sticker of every face equals that face's identity
color (faces checked in state order F, R, U, B, L, D). -/
def isSolved (c : Cube) : Bool :=
  (c.f.all (fun s => s == colorsOf F)) &&
  (c.r.all (fun s => s == colorsOf R)) &&
  (c.u.all (fun s => s == colorsOf U)) &&
  (c.b.all (fun s => s == colorsOf B)) &&
  (c.l.all (fun s => s == colorsOf L)) &&
  (c.d.all (fun s => s == colorsOf D))

/-- The six center stickers (index 4 of each face), in face order. -/
def centers (c : Cube) : List Char :=
  [c.get F 4, c.get R 4, c.get U 4, c.get B 4, c.get L 4, c.get D 4]

/-- The six identity colors in face order F, R, U, B, L, D. -/
def identityColors : List Char := ['r', 'g', 'y', 'o', 'b', 'w']

/-- Well-formedness: each face holds exactly 9 stickers, as every state built
by the constructor and mutated by the move engine does. -/
def Wf (c : Cube) : Prop :=
  c.f.length = 9 ∧ c.r.length = 9 ∧ c.u.length = 9 ∧
  c.b.length = 9 ∧ c.l.length = 9 ∧ c.d.length = 9

/-- The inverse pairing of move symbols stated by the spec: each base move
with its prime counterpart and vice versa. -/
def invOf : String → String
  | "U" => "U_PRIME"
  | "U_PRIME" => "U"
  | "D" => "D_PRIME"
  | "D_PRIME" => "D"
  | "L" => "L_PRIME"
  | "L_PRIME" => "L"
  | "R" => "R_PRIME"
  | "R_PRIME" => "R"
  | "F" => "F_PRIME"
  | "F_PRIME" => "F"
  | "B" => "B_PRIME"
  | "B_PRIME" => "B"
  | m => m


/-- The fixed `edgePositions` adjacency table of `findEdgePiece`, flattened in
the JS iteration order: faces F, R, U, B, L, D, inner indices 1, 3, 5, 7.
Each entry is (face, index, adjacent face, adjacent index). -/
def edgeTable : List (Face × Nat × Face × Nat) :=
  [ (F, 1, U, 7), (F, 3, L, 5), (F, 5, R, 3), (F, 7, D, 1),
    (R, 1, U, 5), (R, 3, F, 5), (R, 5, B, 3), (R, 7, D, 5),
    (U, 1, B, 1), (U, 3, L, 1), (U, 5, R, 1), (U, 7, F, 1),
    (B, 1, U, 1), (B, 3, R, 5), (B, 5, L, 3), (B, 7, D, 7),
    (L, 1, U, 3), (L, 3, B, 5), (L, 5, F, 3), (L, 7, D, 3),
    (D, 1, F, 7), (D, 3, L, 7), (D, 5, R, 7), (D, 7, B, 7) ]

/-- The record returned by `findEdgePiece`. -/
structure FoundEdge where
  face1 : Face
  index1 : Nat
  face2 : Face
  index2 : Nat
deriving DecidableEq, Repr

/-- `findEdgePiece(cube, color1, color2)`: scan the adjacency table in order
and return the first position whose sticker pair equals the target colors in
either order, or none. -/
def findEdgePiece (c : Cube) (color1 color2 : Char) : Option FoundEdge :=
  (edgeTable.find? (fun e =>
      (c.get e.1 e.2.1 == color1 && c.get e.2.2.1 e.2.2.2 == color2) ||
      (c.get e.1 e.2.1 == color2 && c.get e.2.2.1 e.2.2.2 == color1))).map
    (fun e => ⟨e.1, e.2.1, e.2.2.1, e.2.2.2⟩)

/-- The 12 distinct canonical edge positions described by `findEdgePiece`'s
table (each geometric edge listed once, at its first occurrence in the scan). -/
def canonicalEdges : List (Face × Nat × Face × Nat) :=
  [ (F, 1, U, 7), (F, 3, L, 5), (F, 5, R, 3), (F, 7, D, 1),
    (R, 1, U, 5), (R, 5, B, 3), (R, 7, D, 5),
    (B, 1, U, 1), (B, 5, L, 3), (B, 7, D, 7),
    (L, 1, U, 3), (L, 7, D, 3) ]

/-- How many of the 12 canonical edge positions currently hold the unordered
color pair (c1, c2). -/
def countEdgeMatches (c : Cube) (c1 c2 : Char) : Nat :=
  (canonicalEdges.filter (fun e =>
      (c.get e.1 e.2.1 == c1 && c.get e.2.2.1 e.2.2.2 == c2) ||
      (c.get e.1 e.2.1 == c2 && c.get e.2.2.1 e.2.2.2 == c1))).length

lemma list9 (xs : List Char) (h : xs.length = 9) :
    ∃ a0 a1 a2 a3 a4 a5 a6 a7 a8, xs = [a0, a1, a2, a3, a4, a5, a6, a7, a8] := by
  rcases xs with _ | ⟨a0, xs⟩; · simp at h
  rcases xs with _ | ⟨a1, xs⟩; · simp at h
  rcases xs with _ | ⟨a2, xs⟩; · simp at h
  rcases xs with _ | ⟨a3, xs⟩; · simp at h
  rcases xs with _ | ⟨a4, xs⟩; · simp at h
  rcases xs with _ | ⟨a5, xs⟩; · simp at h
  rcases xs with _ | ⟨a6, xs⟩; · simp at h
  rcases xs with _ | ⟨a7, xs⟩; · simp at h
  rcases xs with _ | ⟨a8, xs⟩; · simp at h
  rcases xs with _ | ⟨a9, xs⟩
  · exact ⟨a0, a1, a2, a3, a4, a5, a6, a7, a8, rfl⟩
  · simp at h

lemma cube_destruct (c : Cube) (h : Wf c) :
    ∃ f0 f1 f2 f3 f4 f5 f6 f7 f8 r0 r1 r2 r3 r4 r5 r6 r7 r8
      u0 u1 u2 u3 u4 u5 u6 u7 u8 b0 b1 b2 b3 b4 b5 b6 b7 b8
      l0 l1 l2 l3 l4 l5 l6 l7 l8 d0 d1 d2 d3 d4 d5 d6 d7 d8,
      c = ⟨[f0, f1, f2, f3, f4, f5, f6, f7, f8], [r0, r1, r2, r3, r4, r5, r6, r7, r8],
           [u0, u1, u2, u3, u4, u5, u6, u7, u8], [b0, b1, b2, b3, b4, b5, b6, b7, b8],
           [l0, l1, l2, l3, l4, l5, l6, l7, l8], [d0, d1, d2, d3, d4, d5, d6, d7, d8]⟩ := by
  obtain ⟨cf, cr, cu, cb, cl, cd⟩ := c
  obtain ⟨hf, hr, hu, hb, hl, hd⟩ := h
  obtain ⟨f0, f1, f2, f3, f4, f5, f6, f7, f8, rfl⟩ := list9 cf hf
  obtain ⟨r0, r1, r2, r3, r4, r5, r6, r7, r8, rfl⟩ := list9 cr hr
  obtain ⟨u0, u1, u2, u3, u4, u5, u6, u7, u8, rfl⟩ := list9 cu hu
  obtain ⟨b0, b1, b2, b3, b4, b5, b6, b7, b8, rfl⟩ := list9 cb hb
  obtain ⟨l0, l1, l2, l3, l4, l5, l6, l7, l8, rfl⟩ := list9 cl hl
  obtain ⟨d0, d1, d2, d3, d4, d5, d6, d7, d8, rfl⟩ := list9 cd hd
  exact ⟨f0, f1, f2, f3, f4, f5, f6, f7, f8, r0, r1, r2, r3, r4, r5, r6, r7, r8,
    u0, u1, u2, u3, u4, u5, u6, u7, u8, b0, b1, b2, b3, b4, b5, b6, b7, b8,
    l0, l1, l2, l3, l4, l5, l6, l7, l8, d0, d1, d2, d3, d4, d5, d6, d7, d8, rfl⟩




lemma apply_U (f0 f1 f2 f3 f4 f5 f6 f7 f8 r0 r1 r2 r3 r4 r5 r6 r7 r8 u0 u1 u2 u3 u4 u5 u6 u7 u8 b0 b1 b2 b3 b4 b5 b6 b7 b8 l0 l1 l2 l3 l4 l5 l6 l7 l8 d0 d1 d2 d3 d4 d5 d6 d7 d8 : Char) :
    applyMove
      ⟨[f0,f1,f2,f3,f4,f5,f6,f7,f8],
       [r0,r1,r2,r3,r4,r5,r6,r7,r8],
       [u0,u1,u2,u3,u4,u5,u6,u7,u8],
       [b0,b1,b2,b3,b4,b5,b6,b7,b8],
       [l0,l1,l2,l3,l4,l5,l6,l7,l8],
       [d0,d1,d2,d3,d4,d5,d6,d7,d8]⟩ "U" =
      ⟨[l0,l1,l2,f3,f4,f5,f6,f7,f8],
       [f0,f1,f2,r3,r4,r5,r6,r7,r8],
       [u6,u3,u0,u7,u4,u1,u8,u5,u2],
       [r0,r1,r2,b3,b4,b5,b6,b7,b8],
       [b0,b1,b2,l3,l4,l5,l6,l7,l8],
       [d0,d1,d2,d3,d4,d5,d6,d7,d8]⟩ := by
  rfl

lemma apply_Up (f0 f1 f2 f3 f4 f5 f6 f7 f8 r0 r1 r2 r3 r4 r5 r6 r7 r8 u0 u1 u2 u3 u4 u5 u6 u7 u8 b0 b1 b2 b3 b4 b5 b6 b7 b8 l0 l1 l2 l3 l4 l5 l6 l7 l8 d0 d1 d2 d3 d4 d5 d6 d7 d8 : Char) :
    applyMove
      ⟨[f0,f1,f2,f3,f4,f5,f6,f7,f8],
       [r0,r1,r2,r3,r4,r5,r6,r7,r8],
       [u0,u1,u2,u3,u4,u5,u6,u7,u8],
       [b0,b1,b2,b3,b4,b5,b6,b7,b8],
       [l0,l1,l2,l3,l4,l5,l6,l7,l8],
       [d0,d1,d2,d3,d4,d5,d6,d7,d8]⟩ "U_PRIME" =
      ⟨[r0,r1,r2,f3,f4,f5,f6,f7,f8],
       [b0,b1,b2,r3,r4,r5,r6,r7,r8],
       [u2,u5,u8,u1,u4,u7,u0,u3,u6],
       [l0,l1,l2,b3,b4,b5,b6,b7,b8],
       [f0,f1,f2,l3,l4,l5,l6,l7,l8],
       [d0,d1,d2,d3,d4,d5,d6,d7,d8]⟩ := by
  rfl

lemma apply_D (f0 f1 f2 f3 f4 f5 f6 f7 f8 r0 r1 r2 r3 r4 r5 r6 r7 r8 u0 u1 u2 u3 u4 u5 u6 u7 u8 b0 b1 b2 b3 b4 b5 b6 b7 b8 l0 l1 l2 l3 l4 l5 l6 l7 l8 d0 d1 d2 d3 d4 d5 d6 d7 d8 : Char) :
    applyMove
      ⟨[f0,f1,f2,f3,f4,f5,f6,f7,f8],
       [r0,r1,r2,r3,r4,r5,r6,r7,r8],
       [u0,u1,u2,u3,u4,u5,u6,u7,u8],
       [b0,b1,b2,b3,b4,b5,b6,b7,b8],
       [l0,l1,l2,l3,l4,l5,l6,l7,l8],
       [d0,d1,d2,d3,d4,d5,d6,d7,d8]⟩ "D" =
      ⟨[f0,f1,f2,f3,f4,f5,r6,r7,r8],
       [r0,r1,r2,r3,r4,r5,b6,b7,b8],
       [u0,u1,u2,u3,u4,u5,u6,u7,u8],
       [b0,b1,b2,b3,b4,b5,l6,l7,l8],
       [l0,l1,l2,l3,l4,l5,f6,f7,f8],
       [d6,d3,d0,d7,d4,d1,d8,d5,d2]⟩ := by
  rfl

lemma apply_Dp (f0 f1 f2 f3 f4 f5 f6 f7 f8 r0 r1 r2 r3 r4 r5 r6 r7 r8 u0 u1 u2 u3 u4 u5 u6 u7 u8 b0 b1 b2 b3 b4 b5 b6 b7 b8 l0 l1 l2 l3 l4 l5 l6 l7 l8 d0 d1 d2 d3 d4 d5 d6 d7 d8 : Char) :
    applyMove
      ⟨[f0,f1,f2,f3,f4,f5,f6,f7,f8],
       [r0,r1,r2,r3,r4,r5,r6,r7,r8],
       [u0,u1,u2,u3,u4,u5,u6,u7,u8],
       [b0,b1,b2,b3,b4,b5,b6,b7,b8],
       [l0,l1,l2,l3,l4,l5,l6,l7,l8],
       [d0,d1,d2,d3,d4,d5,d6,d7,d8]⟩ "D_PRIME" =
      ⟨[f0,f1,f2,f3,f4,f5,l6,l7,l8],
       [r0,r1,r2,r3,r4,r5,f6,f7,f8],
       [u0,u1,u2,u3,u4,u5,u6,u7,u8],
       [b0,b1,b2,b3,b4,b5,r6,r7,r8],
       [l0,l1,l2,l3,l4,l5,b6,b7,b8],
       [d2,d5,d8,d1,d4,d7,d0,d3,d6]⟩ := by
  rfl

lemma apply_L (f0 f1 f2 f3 f4 f5 f6 f7 f8 r0 r1 r2 r3 r4 r5 r6 r7 r8 u0 u1 u2 u3 u4 u5 u6 u7 u8 b0 b1 b2 b3 b4 b5 b6 b7 b8 l0 l1 l2 l3 l4 l5 l6 l7 l8 d0 d1 d2 d3 d4 d5 d6 d7 d8 : Char) :
    applyMove
      ⟨[f0,f1,f2,f3,f4,f5,f6,f7,f8],
       [r0,r1,r2,r3,r4,r5,r6,r7,r8],
       [u0,u1,u2,u3,u4,u5,u6,u7,u8],
       [b0,b1,b2,b3,b4,b5,b6,b7,b8],
       [l0,l1,l2,l3,l4,l5,l6,l7,l8],
       [d0,d1,d2,d3,d4,d5,d6,d7,d8]⟩ "L" =
      ⟨[u0,f1,f2,u3,f4,f5,u6,f7,f8],
       [r0,r1,r2,r3,r4,r5,r6,r7,r8],
       [b8,u1,u2,b5,u4,u5,b2,u7,u8],
       [b0,b1,d6,b3,b4,d3,b6,b7,d0],
       [l6,l3,l0,l7,l4,l1,l8,l5,l2],
       [f0,d1,d2,f3,d4,d5,f6,d7,d8]⟩ := by
  rfl

lemma apply_Lp (f0 f1 f2 f3 f4 f5 f6 f7 f8 r0 r1 r2 r3 r4 r5 r6 r7 r8 u0 u1 u2 u3 u4 u5 u6 u7 u8 b0 b1 b2 b3 b4 b5 b6 b7 b8 l0 l1 l2 l3 l4 l5 l6 l7 l8 d0 d1 d2 d3 d4 d5 d6 d7 d8 : Char) :
    applyMove
      ⟨[f0,f1,f2,f3,f4,f5,f6,f7,f8],
       [r0,r1,r2,r3,r4,r5,r6,r7,r8],
       [u0,u1,u2,u3,u4,u5,u6,u7,u8],
       [b0,b1,b2,b3,b4,b5,b6,b7,b8],
       [l0,l1,l2,l3,l4,l5,l6,l7,l8],
       [d0,d1,d2,d3,d4,d5,d6,d7,d8]⟩ "L_PRIME" =
      ⟨[d0,f1,f2,d3,f4,f5,d6,f7,f8],
       [r0,r1,r2,r3,r4,r5,r6,r7,r8],
       [f0,u1,u2,f3,u4,u5,f6,u7,u8],
       [b0,b1,u6,b3,b4,u3,b6,b7,u0],
       [l2,l5,l8,l1,l4,l7,l0,l3,l6],
       [b8,d1,d2,b5,d4,d5,b2,d7,d8]⟩ := by
  rfl

lemma apply_R (f0 f1 f2 f3 f4 f5 f6 f7 f8 r0 r1 r2 r3 r4 r5 r6 r7 r8 u0 u1 u2 u3 u4 u5 u6 u7 u8 b0 b1 b2 b3 b4 b5 b6 b7 b8 l0 l1 l2 l3 l4 l5 l6 l7 l8 d0 d1 d2 d3 d4 d5 d6 d7 d8 : Char) :
    applyMove
      ⟨[f0,f1,f2,f3,f4,f5,f6,f7,f8],
       [r0,r1,r2,r3,r4,r5,r6,r7,r8],
       [u0,u1,u2,u3,u4,u5,u6,u7,u8],
       [b0,b1,b2,b3,b4,b5,b6,b7,b8],
       [l0,l1,l2,l3,l4,l5,l6,l7,l8],
       [d0,d1,d2,d3,d4,d5,d6,d7,d8]⟩ "R" =
      ⟨[f0,f1,d2,f3,f4,d5,f6,f7,d8],
       [r6,r3,r0,r7,r4,r1,r8,r5,r2],
       [u0,u1,f2,u3,u4,f5,u6,u7,f8],
       [u8,b1,b2,u5,b4,b5,u2,b7,b8],
       [l0,l1,l2,l3,l4,l5,l6,l7,l8],
       [d0,d1,b6,d3,d4,b3,d6,d7,b0]⟩ := by
  rfl

lemma apply_Rp (f0 f1 f2 f3 f4 f5 f6 f7 f8 r0 r1 r2 r3 r4 r5 r6 r7 r8 u0 u1 u2 u3 u4 u5 u6 u7 u8 b0 b1 b2 b3 b4 b5 b6 b7 b8 l0 l1 l2 l3 l4 l5 l6 l7 l8 d0 d1 d2 d3 d4 d5 d6 d7 d8 : Char) :
    applyMove
      ⟨[f0,f1,f2,f3,f4,f5,f6,f7,f8],
       [r0,r1,r2,r3,r4,r5,r6,r7,r8],
       [u0,u1,u2,u3,u4,u5,u6,u7,u8],
       [b0,b1,b2,b3,b4,b5,b6,b7,b8],
       [l0,l1,l2,l3,l4,l5,l6,l7,l8],
       [d0,d1,d2,d3,d4,d5,d6,d7,d8]⟩ "R_PRIME" =
      ⟨[f0,f1,u2,f3,f4,u5,f6,f7,u8],
       [r2,r5,r8,r1,r4,r7,r0,r3,r6],
       [u0,u1,b6,u3,u4,b3,u6,u7,b0],
       [d8,b1,b2,d5,b4,b5,d2,b7,b8],
       [l0,l1,l2,l3,l4,l5,l6,l7,l8],
       [d0,d1,f2,d3,d4,f5,d6,d7,f8]⟩ := by
  rfl

lemma apply_F (f0 f1 f2 f3 f4 f5 f6 f7 f8 r0 r1 r2 r3 r4 r5 r6 r7 r8 u0 u1 u2 u3 u4 u5 u6 u7 u8 b0 b1 b2 b3 b4 b5 b6 b7 b8 l0 l1 l2 l3 l4 l5 l6 l7 l8 d0 d1 d2 d3 d4 d5 d6 d7 d8 : Char) :
    applyMove
      ⟨[f0,f1,f2,f3,f4,f5,f6,f7,f8],
       [r0,r1,r2,r3,r4,r5,r6,r7,r8],
       [u0,u1,u2,u3,u4,u5,u6,u7,u8],
       [b0,b1,b2,b3,b4,b5,b6,b7,b8],
       [l0,l1,l2,l3,l4,l5,l6,l7,l8],
       [d0,d1,d2,d3,d4,d5,d6,d7,d8]⟩ "F" =
      ⟨[f6,f3,f0,f7,f4,f1,f8,f5,f2],
       [u6,r1,r2,u7,r4,r5,u8,r7,r8],
       [u0,u1,u2,u3,u4,u5,l2,l5,l8],
       [b0,b1,b2,b3,b4,b5,b6,b7,b8],
       [l0,l1,d0,l3,l4,d1,l6,l7,d2],
       [r0,r3,r6,d3,d4,d5,d6,d7,d8]⟩ := by
  rfl

lemma apply_Fp (f0 f1 f2 f3 f4 f5 f6 f7 f8 r0 r1 r2 r3 r4 r5 r6 r7 r8 u0 u1 u2 u3 u4 u5 u6 u7 u8 b0 b1 b2 b3 b4 b5 b6 b7 b8 l0 l1 l2 l3 l4 l5 l6 l7 l8 d0 d1 d2 d3 d4 d5 d6 d7 d8 : Char) :
    applyMove
      ⟨[f0,f1,f2,f3,f4,f5,f6,f7,f8],
       [r0,r1,r2,r3,r4,r5,r6,r7,r8],
       [u0,u1,u2,u3,u4,u5,u6,u7,u8],
       [b0,b1,b2,b3,b4,b5,b6,b7,b8],
       [l0,l1,l2,l3,l4,l5,l6,l7,l8],
       [d0,d1,d2,d3,d4,d5,d6,d7,d8]⟩ "F_PRIME" =
      ⟨[f2,f5,f8,f1,f4,f7,f0,f3,f6],
       [d0,r1,r2,d1,r4,r5,d2,r7,r8],
       [u0,u1,u2,u3,u4,u5,r0,r3,r6],
       [b0,b1,b2,b3,b4,b5,b6,b7,b8],
       [l0,l1,u6,l3,l4,u7,l6,l7,u8],
       [l2,l5,l8,d3,d4,d5,d6,d7,d8]⟩ := by
  rfl

lemma apply_B (f0 f1 f2 f3 f4 f5 f6 f7 f8 r0 r1 r2 r3 r4 r5 r6 r7 r8 u0 u1 u2 u3 u4 u5 u6 u7 u8 b0 b1 b2 b3 b4 b5 b6 b7 b8 l0 l1 l2 l3 l4 l5 l6 l7 l8 d0 d1 d2 d3 d4 d5 d6 d7 d8 : Char) :
    applyMove
      ⟨[f0,f1,f2,f3,f4,f5,f6,f7,f8],
       [r0,r1,r2,r3,r4,r5,r6,r7,r8],
       [u0,u1,u2,u3,u4,u5,u6,u7,u8],
       [b0,b1,b2,b3,b4,b5,b6,b7,b8],
       [l0,l1,l2,l3,l4,l5,l6,l7,l8],
       [d0,d1,d2,d3,d4,d5,d6,d7,d8]⟩ "B" =
      ⟨[f0,f1,f2,f3,f4,f5,f6,f7,f8],
       [r0,r1,d6,r3,r4,d7,r6,r7,d8],
       [r2,r5,r8,u3,u4,u5,u6,u7,u8],
       [b6,b3,b0,b7,b4,b1,b8,b5,b2],
       [u0,l1,l2,u1,l4,l5,u2,l7,l8],
       [d0,d1,d2,d3,d4,d5,l0,l3,l6]⟩ := by
  rfl

lemma apply_Bp (f0 f1 f2 f3 f4 f5 f6 f7 f8 r0 r1 r2 r3 r4 r5 r6 r7 r8 u0 u1 u2 u3 u4 u5 u6 u7 u8 b0 b1 b2 b3 b4 b5 b6 b7 b8 l0 l1 l2 l3 l4 l5 l6 l7 l8 d0 d1 d2 d3 d4 d5 d6 d7 d8 : Char) :
    applyMove
      ⟨[f0,f1,f2,f3,f4,f5,f6,f7,f8],
       [r0,r1,r2,r3,r4,r5,r6,r7,r8],
       [u0,u1,u2,u3,u4,u5,u6,u7,u8],
       [b0,b1,b2,b3,b4,b5,b6,b7,b8],
       [l0,l1,l2,l3,l4,l5,l6,l7,l8],
       [d0,d1,d2,d3,d4,d5,d6,d7,d8]⟩ "B_PRIME" =
      ⟨[f0,f1,f2,f3,f4,f5,f6,f7,f8],
       [r0,r1,u0,r3,r4,u1,r6,r7,u2],
       [l0,l3,l6,u3,u4,u5,u6,u7,u8],
       [b2,b5,b8,b1,b4,b7,b0,b3,b6],
       [d6,l1,l2,d7,l4,l5,d8,l7,l8],
       [d0,d1,d2,d3,d4,d5,r2,r5,r8]⟩ := by
  rfl

/-- Source-index table of the "U" move: the sticker now at flat position k
came from flat position permU[k] of the previous state. -/
def permU : List Nat :=
  [36, 37, 38, 3, 4, 5, 6, 7, 8, 0, 1, 2, 12, 13, 14, 15, 16, 17, 24, 21, 18, 25, 22, 19, 26, 23, 20, 9, 10, 11, 30, 31, 32, 33, 34, 35, 27, 28, 29, 39, 40, 41, 42, 43, 44, 45, 46, 47, 48, 49, 50, 51, 52, 53]

/-- Source-index table of the "U_PRIME" move: the sticker now at flat position k
came from flat position permUp[k] of the previous state. -/
def permUp : List Nat :=
  [9, 10, 11, 3, 4, 5, 6, 7, 8, 27, 28, 29, 12, 13, 14, 15, 16, 17, 20, 23, 26, 19, 22, 25, 18, 21, 24, 36, 37, 38, 30, 31, 32, 33, 34, 35, 0, 1, 2, 39, 40, 41, 42, 43, 44, 45, 46, 47, 48, 49, 50, 51, 52, 53]

/-- Source-index table of the "D" move: the sticker now at flat position k
came from flat position permD[k] of the previous state. -/
def permD : List Nat :=
  [0, 1, 2, 3, 4, 5, 15, 16, 17, 9, 10, 11, 12, 13, 14, 33, 34, 35, 18, 19, 20, 21, 22, 23, 24, 25, 26, 27, 28, 29, 30, 31, 32, 42, 43, 44, 36, 37, 38, 39, 40, 41, 6, 7, 8, 51, 48, 45, 52, 49, 46, 53, 50, 47]

/-- Source-index table of the "D_PRIME" move: the sticker now at flat position k
came from flat position permDp[k] of the previous state. -/
def permDp : List Nat :=
  [0, 1, 2, 3, 4, 5, 42, 43, 44, 9, 10, 11, 12, 13, 14, 6, 7, 8, 18, 19, 20, 21, 22, 23, 24, 25, 26, 27, 28, 29, 30, 31, 32, 15, 16, 17, 36, 37, 38, 39, 40, 41, 33, 34, 35, 47, 50, 53, 46, 49, 52, 45, 48, 51]

/-- Source-index table of the "L" move: the sticker now at flat position k
came from flat position permL[k] of the previous state. -/
def permL : List Nat :=
  [18, 1, 2, 21, 4, 5, 24, 7, 8, 9, 10, 11, 12, 13, 14, 15, 16, 17, 35, 19, 20, 32, 22, 23, 29, 25, 26, 27, 28, 51, 30, 31, 48, 33, 34, 45, 42, 39, 36, 43, 40, 37, 44, 41, 38, 0, 46, 47, 3, 49, 50, 6, 52, 53]

/-- Source-index table of the "L_PRIME" move: the sticker now at flat position k
came from flat position permLp[k] of the previous state. -/
def permLp : List Nat :=
  [45, 1, 2, 48, 4, 5, 51, 7, 8, 9, 10, 11, 12, 13, 14, 15, 16, 17, 0, 19, 20, 3, 22, 23, 6, 25, 26, 27, 28, 24, 30, 31, 21, 33, 34, 18, 38, 41, 44, 37, 40, 43, 36, 39, 42, 35, 46, 47, 32, 49, 50, 29, 52, 53]

/-- Source-index table of the "R" move: the sticker now at flat position k
came from flat position permR[k] of the previous state. -/
def permR : List Nat :=
  [0, 1, 47, 3, 4, 50, 6, 7, 53, 15, 12, 9, 16, 13, 10, 17, 14, 11, 18, 19, 2, 21, 22, 5, 24, 25, 8, 26, 28, 29, 23, 31, 32, 20, 34, 35, 36, 37, 38, 39, 40, 41, 42, 43, 44, 45, 46, 33, 48, 49, 30, 51, 52, 27]

/-- Source-index table of the "R_PRIME" move: the sticker now at flat position k
came from flat position permRp[k] of the previous state. -/
def permRp : List Nat :=
  [0, 1, 20, 3, 4, 23, 6, 7, 26, 11, 14, 17, 10, 13, 16, 9, 12, 15, 18, 19, 33, 21, 22, 30, 24, 25, 27, 53, 28, 29, 50, 31, 32, 47, 34, 35, 36, 37, 38, 39, 40, 41, 42, 43, 44, 45, 46, 2, 48, 49, 5, 51, 52, 8]

/-- Source-index table of the "F" move: the sticker now at flat position k
came from flat position permF[k] of the previous state. -/
def permF : List Nat :=
  [6, 3, 0, 7, 4, 1, 8, 5, 2, 24, 10, 11, 25, 13, 14, 26, 16, 17, 18, 19, 20, 21, 22, 23, 38, 41, 44, 27, 28, 29, 30, 31, 32, 33, 34, 35, 36, 37, 45, 39, 40, 46, 42, 43, 47, 9, 12, 15, 48, 49, 50, 51, 52, 53]

/-- Source-index table of the "F_PRIME" move: the sticker now at flat position k
came from flat position permFp[k] of the previous state. -/
def permFp : List Nat :=
  [2, 5, 8, 1, 4, 7, 0, 3, 6, 45, 10, 11, 46, 13, 14, 47, 16, 17, 18, 19, 20, 21, 22, 23, 9, 12, 15, 27, 28, 29, 30, 31, 32, 33, 34, 35, 36, 37, 24, 39, 40, 25, 42, 43, 26, 38, 41, 44, 48, 49, 50, 51, 52, 53]

/-- Source-index table of the "B" move: the sticker now at flat position k
came from flat position permB[k] of the previous state. -/
def permB : List Nat :=
  [0, 1, 2, 3, 4, 5, 6, 7, 8, 9, 10, 51, 12, 13, 52, 15, 16, 53, 11, 14, 17, 21, 22, 23, 24, 25, 26, 33, 30, 27, 34, 31, 28, 35, 32, 29, 18, 37, 38, 19, 40, 41, 20, 43, 44, 45, 46, 47, 48, 49, 50, 36, 39, 42]

/-- Source-index table of the "B_PRIME" move: the sticker now at flat position k
came from flat position permBp[k] of the previous state. -/
def permBp : List Nat :=
  [0, 1, 2, 3, 4, 5, 6, 7, 8, 9, 10, 18, 12, 13, 19, 15, 16, 20, 36, 39, 42, 21, 22, 23, 24, 25, 26, 29, 32, 35, 28, 31, 34, 27, 30, 33, 51, 37, 38, 52, 40, 41, 53, 43, 44, 45, 46, 47, 48, 49, 50, 11, 14, 17]



lemma mem_validMoves_cases (m : String) (hm : m ∈ validMoves) :
    m = "U" ∨ m = "U_PRIME" ∨ m = "D" ∨ m = "D_PRIME" ∨ m = "L" ∨ m = "L_PRIME" ∨
    m = "R" ∨ m = "R_PRIME" ∨ m = "F" ∨ m = "F_PRIME" ∨ m = "B" ∨ m = "B_PRIME" := by
  simpa [validMoves] using hm

lemma applyMove_invalid (c : Cube) (m : String) (hm : m ∉ validMoves) :
    applyMove c m = c := by
  have hne : ∀ x, x ∈ validMoves → m ≠ x := by
    intro x hx e
    exact hm (e ▸ hx)
  unfold applyMove
  rw [if_neg (hne "U" (by decide)), if_neg (hne "U_PRIME" (by decide)),
    if_neg (hne "D" (by decide)), if_neg (hne "D_PRIME" (by decide)),
    if_neg (hne "L" (by decide)), if_neg (hne "L_PRIME" (by decide)),
    if_neg (hne "R" (by decide)), if_neg (hne "R_PRIME" (by decide)),
    if_neg (hne "F" (by decide)), if_neg (hne "F_PRIME" (by decide)),
    if_neg (hne "B" (by decide)), if_neg (hne "B_PRIME" (by decide))]

set_option maxHeartbeats 1600000 in
lemma wf_applyMove (c : Cube) (h : Wf c) (m : String) : Wf (applyMove c m) := by
  by_cases hm : m ∈ validMoves
  · obtain ⟨f0, f1, f2, f3, f4, f5, f6, f7, f8, r0, r1, r2, r3, r4, r5, r6, r7, r8,
      u0, u1, u2, u3, u4, u5, u6, u7, u8, b0, b1, b2, b3, b4, b5, b6, b7, b8,
      l0, l1, l2, l3, l4, l5, l6, l7, l8, d0, d1, d2, d3, d4, d5, d6, d7, d8, rfl⟩ :=
      cube_destruct c h
    rcases mem_validMoves_cases m hm with
      rfl | rfl | rfl | rfl | rfl | rfl | rfl | rfl | rfl | rfl | rfl | rfl
    · rw [apply_U]; exact ⟨rfl, rfl, rfl, rfl, rfl, rfl⟩
    · rw [apply_Up]; exact ⟨rfl, rfl, rfl, rfl, rfl, rfl⟩
    · rw [apply_D]; exact ⟨rfl, rfl, rfl, rfl, rfl, rfl⟩
    · rw [apply_Dp]; exact ⟨rfl, rfl, rfl, rfl, rfl, rfl⟩
    · rw [apply_L]; exact ⟨rfl, rfl, rfl, rfl, rfl, rfl⟩
    · rw [apply_Lp]; exact ⟨rfl, rfl, rfl, rfl, rfl, rfl⟩
    · rw [apply_R]; exact ⟨rfl, rfl, rfl, rfl, rfl, rfl⟩
    · rw [apply_Rp]; exact ⟨rfl, rfl, rfl, rfl, rfl, rfl⟩
    · rw [apply_F]; exact ⟨rfl, rfl, rfl, rfl, rfl, rfl⟩
    · rw [apply_Fp]; exact ⟨rfl, rfl, rfl, rfl, rfl, rfl⟩
    · rw [apply_B]; exact ⟨rfl, rfl, rfl, rfl, rfl, rfl⟩
    · rw [apply_Bp]; exact ⟨rfl, rfl, rfl, rfl, rfl, rfl⟩
  · rw [applyMove_invalid c m hm]; exact h

lemma wf_solvedCube : Wf solvedCube :=
  ⟨rfl, rfl, rfl, rfl, rfl, rfl⟩

lemma map_range_getD (xs : List Char) :
    (List.range xs.length).map (fun i => xs.getD i ' ') = xs := by
  induction xs with
  | nil => rfl
  | cons a t ih =>
    rw [List.length_cons, List.range_succ_eq_map, List.map_cons, List.map_map]
    refine congrArg₂ _ rfl ?_
    calc (List.range t.length).map ((fun i => (a :: t).getD i ' ') ∘ Nat.succ)
        = (List.range t.length).map (fun i => t.getD i ' ') := by
          refine List.map_congr_left ?_
          intro i _
          rfl
      _ = t := ih

lemma perm_map_getD (xs : List Char) (p : List Nat) (hxs : xs.length = 54)
    (hp : p.Perm (List.range 54)) :
    (p.map (fun i => xs.getD i ' ')).Perm xs := by
  have h1 : (p.map (fun i => xs.getD i ' ')).Perm
      ((List.range 54).map (fun i => xs.getD i ' ')) :=
    hp.map _
  have h2 : (List.range 54).map (fun i => xs.getD i ' ') = xs := by
    rw [← hxs]; exact map_range_getD xs
  rwa [h2] at h1

lemma perm_helper (cNew cOld : Cube) (p : List Nat) (hp : p.Perm (List.range 54))
    (hlen : (toColorList cOld).length = 54)
    (h : toColorList cNew = p.map (fun i => (toColorList cOld).getD i ' ')) :
    (toColorList cNew).Perm (toColorList cOld) := by
  rw [h]
  exact perm_map_getD _ _ hlen hp

set_option maxHeartbeats 1600000 in
lemma perm_applyMove (m : String) (hm : m ∈ validMoves) (c : Cube) (h : Wf c) :
    (toColorList (applyMove c m)).Perm (toColorList c) := by
  obtain ⟨f0, f1, f2, f3, f4, f5, f6, f7, f8, r0, r1, r2, r3, r4, r5, r6, r7, r8,
    u0, u1, u2, u3, u4, u5, u6, u7, u8, b0, b1, b2, b3, b4, b5, b6, b7, b8,
    l0, l1, l2, l3, l4, l5, l6, l7, l8, d0, d1, d2, d3, d4, d5, d6, d7, d8, rfl⟩ :=
    cube_destruct c h
  rcases mem_validMoves_cases m hm with
    rfl | rfl | rfl | rfl | rfl | rfl | rfl | rfl | rfl | rfl | rfl | rfl
  · rw [apply_U]
    exact perm_helper _ _ permU (by decide) rfl rfl
  · rw [apply_Up]
    exact perm_helper _ _ permUp (by decide) rfl rfl
  · rw [apply_D]
    exact perm_helper _ _ permD (by decide) rfl rfl
  · rw [apply_Dp]
    exact perm_helper _ _ permDp (by decide) rfl rfl
  · rw [apply_L]
    exact perm_helper _ _ permL (by decide) rfl rfl
  · rw [apply_Lp]
    exact perm_helper _ _ permLp (by decide) rfl rfl
  · rw [apply_R]
    exact perm_helper _ _ permR (by decide) rfl rfl
  · rw [apply_Rp]
    exact perm_helper _ _ permRp (by decide) rfl rfl
  · rw [apply_F]
    exact perm_helper _ _ permF (by decide) rfl rfl
  · rw [apply_Fp]
    exact perm_helper _ _ permFp (by decide) rfl rfl
  · rw [apply_B]
    exact perm_helper _ _ permB (by decide) rfl rfl
  · rw [apply_Bp]
    exact perm_helper _ _ permBp (by decide) rfl rfl

lemma perm_applyMoves (ms : List String) (hms : ∀ m ∈ ms, m ∈ validMoves)
    (c : Cube) (h : Wf c) :
    (toColorList (applyMoves c ms)).Perm (toColorList c) := by
  induction ms generalizing c with
  | nil => exact List.Perm.refl _
  | cons m ms ih =>
    have hstep : applyMoves c (m :: ms) = applyMoves (applyMove c m) ms := rfl
    rw [hstep]
    have h1 := perm_applyMove m (hms m (List.mem_cons_self m ms)) c h
    have h2 := ih (fun x hx => hms x (List.mem_cons_of_mem m hx))
      (applyMove c m) (wf_applyMove c h m)
    exact h2.trans h1

lemma wf_applyMoves (ms : List String) (c : Cube) (h : Wf c) :
    Wf (applyMoves c ms) := by
  induction ms generalizing c with
  | nil => exact h
  | cons m ms ih => exact ih (applyMove c m) (wf_applyMove c h m)

/-- The commutator test sequence of the spec scenario. -/
def commutatorSeq : List String := ["R", "U", "R_PRIME", "U_PRIME"]

/-- n consecutive repetitions of a move sequence. -/
def repSeq (n : Nat) (xs : List String) : List String :=
  (List.replicate n xs).flatten

set_option maxHeartbeats 1600000 in
/-- Claim C1: for every well-formed cube state and each of the 12 move symbols
M, applying M via manualRotate and then applying M's inverse counterpart (the
prime of a base move, the base of a prime move) restores all 54 stickers to
their exact prior values. -/
theorem inverse_law (m : String) (hm : m ∈ validMoves) (c : Cube) (h : Wf c)
    (hist hist2 : List String) (rc1 rc2 : Bool) :
    (manualRotate (manualRotate c hist m rc1).1 hist2 (invOf m) rc2).1 = c := by
  have hfst : ∀ (x : Cube) (hs : List String) (mv : String) (rc : Bool),
      (manualRotate x hs mv rc).1 = applyMove x mv := fun _ _ _ _ => rfl
  rw [hfst, hfst]
  obtain ⟨f0, f1, f2, f3, f4, f5, f6, f7, f8, r0, r1, r2, r3, r4, r5, r6, r7, r8,
    u0, u1, u2, u3, u4, u5, u6, u7, u8, b0, b1, b2, b3, b4, b5, b6, b7, b8,
    l0, l1, l2, l3, l4, l5, l6, l7, l8, d0, d1, d2, d3, d4, d5, d6, d7, d8, rfl⟩ := cube_destruct c h
  rcases mem_validMoves_cases m hm with
    rfl | rfl | rfl | rfl | rfl | rfl | rfl | rfl | rfl | rfl | rfl | rfl
  · rw [show invOf "U" = "U_PRIME" from rfl, apply_U, apply_Up]
  · rw [show invOf "U_PRIME" = "U" from rfl, apply_Up, apply_U]
  · rw [show invOf "D" = "D_PRIME" from rfl, apply_D, apply_Dp]
  · rw [show invOf "D_PRIME" = "D" from rfl, apply_Dp, apply_D]
  · rw [show invOf "L" = "L_PRIME" from rfl, apply_L, apply_Lp]
  · rw [show invOf "L_PRIME" = "L" from rfl, apply_Lp, apply_L]
  · rw [show invOf "R" = "R_PRIME" from rfl, apply_R, apply_Rp]
  · rw [show invOf "R_PRIME" = "R" from rfl, apply_Rp, apply_R]
  · rw [show invOf "F" = "F_PRIME" from rfl, apply_F, apply_Fp]
  · rw [show invOf "F_PRIME" = "F" from rfl, apply_Fp, apply_F]
  · rw [show invOf "B" = "B_PRIME" from rfl, apply_B, apply_Bp]
  · rw [show invOf "B_PRIME" = "B" from rfl, apply_Bp, apply_B]

/-- Witness for C1 at the move R on the solved cube. -/
theorem inverse_law_witness :
    (manualRotate (manualRotate solvedCube [] "R" true).1 [] (invOf "R") true).1 =
      solvedCube :=
  inverse_law "R" (by decide) solvedCube ⟨rfl, rfl, rfl, rfl, rfl, rfl⟩ [] [] true true

set_option maxHeartbeats 1600000 in
/-- Claim C2: for every well-formed cube state and every one of the 12 move
symbols, applying the same quarter turn 4 consecutive times restores every
sticker to its exact prior value. -/
theorem order_four_law (m : String) (hm : m ∈ validMoves) (c : Cube) (h : Wf c) :
    applyMoves c (List.replicate 4 m) = c := by
  show applyMove (applyMove (applyMove (applyMove c m) m) m) m = c
  obtain ⟨f0, f1, f2, f3, f4, f5, f6, f7, f8, r0, r1, r2, r3, r4, r5, r6, r7, r8,
    u0, u1, u2, u3, u4, u5, u6, u7, u8, b0, b1, b2, b3, b4, b5, b6, b7, b8,
    l0, l1, l2, l3, l4, l5, l6, l7, l8, d0, d1, d2, d3, d4, d5, d6, d7, d8, rfl⟩ := cube_destruct c h
  rcases mem_validMoves_cases m hm with
    rfl | rfl | rfl | rfl | rfl | rfl | rfl | rfl | rfl | rfl | rfl | rfl
  · rw [apply_U, apply_U, apply_U, apply_U]
  · rw [apply_Up, apply_Up, apply_Up, apply_Up]
  · rw [apply_D, apply_D, apply_D, apply_D]
  · rw [apply_Dp, apply_Dp, apply_Dp, apply_Dp]
  · rw [apply_L, apply_L, apply_L, apply_L]
  · rw [apply_Lp, apply_Lp, apply_Lp, apply_Lp]
  · rw [apply_R, apply_R, apply_R, apply_R]
  · rw [apply_Rp, apply_Rp, apply_Rp, apply_Rp]
  · rw [apply_F, apply_F, apply_F, apply_F]
  · rw [apply_Fp, apply_Fp, apply_Fp, apply_Fp]
  · rw [apply_B, apply_B, apply_B, apply_B]
  · rw [apply_Bp, apply_Bp, apply_Bp, apply_Bp]

/-- Witness for C2 at the move F on the solved cube. -/
theorem order_four_law_witness :
    applyMoves solvedCube (List.replicate 4 "F") = solvedCube :=
  order_four_law "F" (by decide) solvedCube ⟨rfl, rfl, rfl, rfl, rfl, rfl⟩

/-- Claim C3: every state reachable from the freshly constructed solved state
by a finite sequence of the 12 moves carries each of the 6 colors exactly 9
times across the 54 stickers. -/
theorem sticker_conservation (ms : List String) (hms : ∀ m ∈ ms, m ∈ validMoves)
    (col : Char) (hcol : col ∈ identityColors) :
    (toColorList (applyMoves solvedCube ms)).count col = 9 := by
  have hp := perm_applyMoves ms hms solvedCube wf_solvedCube
  rw [hp.count_eq]
  have hc : col = 'r' ∨ col = 'g' ∨ col = 'y' ∨ col = 'o' ∨ col = 'b' ∨ col = 'w' := by
    simpa [identityColors] using hcol
  rcases hc with rfl | rfl | rfl | rfl | rfl | rfl <;> decide

/-- Witness for C3 after the scramble [R, U, F_PRIME] counting white. -/
theorem sticker_conservation_witness :
    (toColorList (applyMoves solvedCube ["R", "U", "F_PRIME"])).count 'w' = 9 :=
  sticker_conservation ["R", "U", "F_PRIME"] (by decide) 'w' (by decide)

set_option maxHeartbeats 1600000 in
/-- Claim C4: every one of the 12 moves leaves the sticker at index 4 of each
face unchanged, and hence every state reachable from the solved state keeps
each face's identity center color (F=r, R=g, U=y, B=o, L=b, D=w). -/
theorem center_fixity :
    (∀ c : Cube, Wf c → ∀ m ∈ validMoves, centers (applyMove c m) = centers c) ∧
    (∀ ms : List String, (∀ m ∈ ms, m ∈ validMoves) →
      centers (applyMoves solvedCube ms) = identityColors) := by
  have hmove : ∀ c : Cube, Wf c → ∀ m ∈ validMoves, centers (applyMove c m) = centers c := by
    intro c h m hm
    obtain ⟨f0, f1, f2, f3, f4, f5, f6, f7, f8, r0, r1, r2, r3, r4, r5, r6, r7, r8,
    u0, u1, u2, u3, u4, u5, u6, u7, u8, b0, b1, b2, b3, b4, b5, b6, b7, b8,
    l0, l1, l2, l3, l4, l5, l6, l7, l8, d0, d1, d2, d3, d4, d5, d6, d7, d8, rfl⟩ := cube_destruct c h
    rcases mem_validMoves_cases m hm with
      rfl | rfl | rfl | rfl | rfl | rfl | rfl | rfl | rfl | rfl | rfl | rfl
    · rw [apply_U]; rfl
    · rw [apply_Up]; rfl
    · rw [apply_D]; rfl
    · rw [apply_Dp]; rfl
    · rw [apply_L]; rfl
    · rw [apply_Lp]; rfl
    · rw [apply_R]; rfl
    · rw [apply_Rp]; rfl
    · rw [apply_F]; rfl
    · rw [apply_Fp]; rfl
    · rw [apply_B]; rfl
    · rw [apply_Bp]; rfl
  refine ⟨hmove, ?_⟩
  have hseq : ∀ ms : List String, (∀ m ∈ ms, m ∈ validMoves) →
      ∀ c : Cube, Wf c → centers (applyMoves c ms) = centers c := by
    intro ms
    induction ms with
    | nil => intro _ c _; rfl
    | cons m ms ih =>
      intro hms c h
      have h1 := hmove c h m (hms m (List.mem_cons_self m ms))
      have h2 := ih (fun x hx => hms x (List.mem_cons_of_mem m hx))
        (applyMove c m) (wf_applyMove c h m)
      calc centers (applyMoves c (m :: ms))
          = centers (applyMoves (applyMove c m) ms) := rfl
        _ = centers (applyMove c m) := h2
        _ = centers c := h1
  intro ms hms
  rw [hseq ms hms solvedCube wf_solvedCube]
  rfl

/-- Witness for C4 at the move U on the solved cube and the scramble [R, U]. -/
theorem center_fixity_witness :
    centers (applyMove solvedCube "U") = centers solvedCube ∧
    centers (applyMoves solvedCube ["R", "U"]) = identityColors :=
  ⟨center_fixity.1 solvedCube ⟨rfl, rfl, rfl, rfl, rfl, rfl⟩ "U" (by decide),
   center_fixity.2 ["R", "U"] (by decide)⟩

/-- Claim C5: the freshly constructed state reports solved; any single one of
the 12 quarter turns applied to the solved state reports not solved; and in
general isSolved is true exactly when every sticker of every face equals that
face's identity color. -/
theorem solved_detection :
    isSolved solvedCube = true ∧
    (∀ m ∈ validMoves, isSolved (applyMove solvedCube m) = false) ∧
    (∀ c : Cube, isSolved c = true ↔
      ((∀ x ∈ c.f, x = colorsOf Face.F) ∧ (∀ x ∈ c.r, x = colorsOf Face.R) ∧
       (∀ x ∈ c.u, x = colorsOf Face.U) ∧ (∀ x ∈ c.b, x = colorsOf Face.B) ∧
       (∀ x ∈ c.l, x = colorsOf Face.L) ∧ (∀ x ∈ c.d, x = colorsOf Face.D))) := by
  refine ⟨by decide, ?_, ?_⟩
  · intro m hm
    rcases mem_validMoves_cases m hm with
      rfl | rfl | rfl | rfl | rfl | rfl | rfl | rfl | rfl | rfl | rfl | rfl <;> decide
  · intro c
    simp [isSolved, List.all_eq_true, Bool.and_eq_true, beq_iff_eq, and_assoc]

/-- Witness for C5 at the move B on the solved cube. -/
theorem solved_detection_witness :
    isSolved (applyMove solvedCube "B") = false :=
  solved_detection.2.1 "B" (by decide)

/-- Claim C6: on the solved cube, findEdgePiece returns the geometrically
correct canonical location for each of the 12 adjacent identity-color pairs,
identically for both argument orders, and returns none for the color pairs of
opposite faces. -/
theorem locator_correctness :
    (findEdgePiece solvedCube 'r' 'y' = some ⟨F, 1, U, 7⟩ ∧
     findEdgePiece solvedCube 'y' 'r' = some ⟨F, 1, U, 7⟩) ∧
    (findEdgePiece solvedCube 'r' 'b' = some ⟨F, 3, L, 5⟩ ∧
     findEdgePiece solvedCube 'b' 'r' = some ⟨F, 3, L, 5⟩) ∧
    (findEdgePiece solvedCube 'r' 'g' = some ⟨F, 5, R, 3⟩ ∧
     findEdgePiece solvedCube 'g' 'r' = some ⟨F, 5, R, 3⟩) ∧
    (findEdgePiece solvedCube 'r' 'w' = some ⟨F, 7, D, 1⟩ ∧
     findEdgePiece solvedCube 'w' 'r' = some ⟨F, 7, D, 1⟩) ∧
    (findEdgePiece solvedCube 'g' 'y' = some ⟨R, 1, U, 5⟩ ∧
     findEdgePiece solvedCube 'y' 'g' = some ⟨R, 1, U, 5⟩) ∧
    (findEdgePiece solvedCube 'g' 'o' = some ⟨R, 5, B, 3⟩ ∧
     findEdgePiece solvedCube 'o' 'g' = some ⟨R, 5, B, 3⟩) ∧
    (findEdgePiece solvedCube 'g' 'w' = some ⟨R, 7, D, 5⟩ ∧
     findEdgePiece solvedCube 'w' 'g' = some ⟨R, 7, D, 5⟩) ∧
    (findEdgePiece solvedCube 'o' 'y' = some ⟨U, 1, B, 1⟩ ∧
     findEdgePiece solvedCube 'y' 'o' = some ⟨U, 1, B, 1⟩) ∧
    (findEdgePiece solvedCube 'o' 'b' = some ⟨B, 5, L, 3⟩ ∧
     findEdgePiece solvedCube 'b' 'o' = some ⟨B, 5, L, 3⟩) ∧
    (findEdgePiece solvedCube 'o' 'w' = some ⟨B, 7, D, 7⟩ ∧
     findEdgePiece solvedCube 'w' 'o' = some ⟨B, 7, D, 7⟩) ∧
    (findEdgePiece solvedCube 'b' 'y' = some ⟨U, 3, L, 1⟩ ∧
     findEdgePiece solvedCube 'y' 'b' = some ⟨U, 3, L, 1⟩) ∧
    (findEdgePiece solvedCube 'b' 'w' = some ⟨L, 7, D, 3⟩ ∧
     findEdgePiece solvedCube 'w' 'b' = some ⟨L, 7, D, 3⟩) ∧
    (findEdgePiece solvedCube 'r' 'o' = none ∧ findEdgePiece solvedCube 'o' 'r' = none) ∧
    (findEdgePiece solvedCube 'g' 'b' = none ∧ findEdgePiece solvedCube 'b' 'g' = none) ∧
    (findEdgePiece solvedCube 'y' 'w' = none ∧ findEdgePiece solvedCube 'w' 'y' = none) := by
  decide

/-- Claim C7 (refuted on the code): after the reachable two-move sequence
[F, U] from the solved state, the real edge color pair (r, y) is held by two
distinct canonical edge positions of findEdgePiece's table, and the real pair
(o, y) is held by none, so the locator's answer is neither unique nor
independent of scan order: the move engine tears edge pieces apart. -/
theorem edge_pair_duplicated :
    (∀ m ∈ ["F", "U"], m ∈ validMoves) ∧
    countEdgeMatches (applyMoves solvedCube ["F", "U"]) 'r' 'y' = 2 ∧
    countEdgeMatches (applyMoves solvedCube ["F", "U"]) 'o' 'y' = 0 := by
  decide

set_option maxRecDepth 16384 in
/-- Claim C8: from the solved state, 6 consecutive repetitions of
[R, U, R_PRIME, U_PRIME] restore the exact solved state, while 4 repetitions
leave the cube unsolved. -/
theorem commutator_order_six :
    applyMoves solvedCube (repSeq 6 commutatorSeq) = solvedCube ∧
    isSolved (applyMoves solvedCube (repSeq 6 commutatorSeq)) = true ∧
    isSolved (applyMoves solvedCube (repSeq 4 commutatorSeq)) = false := by
  decide

set_option maxRecDepth 8192 in
/-- Claim C9 counterexample: manualRotate on the unknown symbol "X" with
record = true leaves the state unchanged but does append "X" to the history,
refuting the claim that nothing is appended. -/
theorem invalid_move_recorded :
    "X" ∉ validMoves ∧
    (manualRotate solvedCube [] "X" true).1 = solvedCube ∧
    (manualRotate solvedCube [] "X" true).2 = ["X"] ∧
    (manualRotate solvedCube [] "X" true).2 ≠ ([] : List String) := by
  decide

/-- Claim C9 (amended): calling manualRotate with a string that is not one of
the 12 recognized move symbols is non-fatal and leaves all 54 stickers
unchanged, but the unrecognized symbol is still appended to the history
whenever record is true (the push happens before the switch validates the
symbol). -/
theorem invalid_move_state_unchanged (c : Cube) (hist : List String) (m : String)
    (hm : m ∉ validMoves) (record : Bool) :
    manualRotate c hist m record = (c, if record then hist ++ [m] else hist) := by
  unfold manualRotate
  rw [applyMove_invalid c m hm]

/-- Witness for the amended C9 at the symbol "X" on the solved cube. -/
theorem invalid_move_state_unchanged_witness :
    manualRotate solvedCube [] "X" true = (solvedCube, ["X"]) :=
  invalid_move_state_unchanged solvedCube [] "X" (by decide) true

structure SolutionStep where
  description : String
  moves : List String
deriving DecidableEq, Repr

def upper (ch : Char) : String := String.mk [ch.toUpper]

def faceStr : Face → String
  | F => "F"
  | R => "R"
  | U => "U"
  | B => "B"
  | L => "L"
  | D => "D"

def whiteColor : Char := colorsOf D

structure Target where
  color1 : Char
  color2 : Char
  targetFace : Face
  targetIndex : Nat
  targetDFaceIndex : Nat
deriving DecidableEq, Repr

def targets : List Target :=
  [ ⟨colorsOf F, whiteColor, F, 7, 1⟩,
    ⟨colorsOf R, whiteColor, R, 7, 5⟩,
    ⟨colorsOf B, whiteColor, B, 7, 7⟩,
    ⟨colorsOf L, whiteColor, L, 7, 3⟩ ]

def edgeName (t : Target) : String := upper t.color1 ++ "-" ++ upper t.color2

def placedStep (t : Target) : SolutionStep :=
  ⟨"Edge " ++ edgeName t ++ " is correctly placed.", []⟩

def errStep (t : Target) : SolutionStep :=
  ⟨"Error: Could not find " ++ edgeName t ++ " edge piece.", []⟩

def failStep (t : Target) : SolutionStep :=
  ⟨"Failed to place " ++ edgeName t ++ " edge after multiple attempts.", []⟩

def repositionStep (t : Target) : SolutionStep :=
  ⟨"Could not find standard path for " ++ edgeName t ++ " edge. Trying to reposition.", []⟩

def phaseStep : SolutionStep := ⟨"Phase 1: Solving the White Cross", []⟩

def doneStep : SolutionStep := ⟨"White Cross Solved!", []⟩

def isSideFace (fk : Face) : Bool := fk == F || fk == R || fk == B || fk == L

def alignColorLoop (t : Target) : Nat → Cube → Face → List String →
    Except (Cube × String) (Cube × List String × Face)
  | 0, c, colorFace, mvs => .ok (c, mvs, colorFace)
  | fuel + 1, c, colorFace, mvs =>
    if colorFace = t.targetFace then .ok (c, mvs, colorFace)
    else
      let c2 := applyMove c "U"
      let mvs2 := mvs ++ ["U"]
      match findEdgePiece c2 t.color1 t.color2 with
      | none => .error (c2, "TypeError: currentEdgePos is null")
      | some pos =>
        let colorFace2 :=
          if c2.get pos.face1 pos.index1 = whiteColor then pos.face2 else pos.face1
        alignColorLoop t fuel c2 colorFace2 mvs2

def alignWhiteLoop (t : Target) : Nat → Cube → Face → List String →
    Except (Cube × String) (Cube × List String × Face)
  | 0, c, whiteFace, mvs => .ok (c, mvs, whiteFace)
  | fuel + 1, c, whiteFace, mvs =>
    if whiteFace = t.targetFace then .ok (c, mvs, whiteFace)
    else
      let c2 := applyMove c "U"
      let mvs2 := mvs ++ ["U"]
      match findEdgePiece c2 t.color1 t.color2 with
      | none => .error (c2, "TypeError: currentEdgePos is null")
      | some pos =>
        let whiteFace2 :=
          if c2.get pos.face1 pos.index1 = whiteColor then pos.face1 else pos.face2
        alignWhiteLoop t fuel c2 whiteFace2 mvs2

def iterBody (t : Target) (c : Cube) (pos0 : FoundEdge) :
    Except (Cube × String) (Cube × List SolutionStep) :=
  let desc0 := "Placing " ++ edgeName t ++ " edge. "
  let dres : Cube × List String × String :=
    if pos0.face1 = D ∨ pos0.face2 = D then
      let adjFace := if pos0.face1 = D then pos0.face2 else pos0.face1
      let adjIdx := if pos0.face1 = D then pos0.index2 else pos0.index1
      let dIdx := if pos0.face1 = D then pos0.index1 else pos0.index2
      if adjFace = t.targetFace ∧ c.get adjFace adjIdx = t.color2 ∧
          c.get D dIdx = t.color1 then
        let c1 := applyMove c (faceStr adjFace)
        let c2 := applyMove c1 "U"
        let c3 := applyMove c2 (faceStr adjFace ++ "_PRIME")
        (c3, [faceStr adjFace, "U", faceStr adjFace ++ "_PRIME"],
         desc0 ++ "Flipping " ++ faceStr adjFace ++ " edge in D layer.")
      else if adjFace ≠ t.targetFace ∨ c.get adjFace adjIdx ≠ t.color1 then
        let c1 := applyMove c (faceStr adjFace)
        let c2 := applyMove c1 (faceStr adjFace)
        (c2, [faceStr adjFace, faceStr adjFace],
         desc0 ++ "Moving " ++ faceStr adjFace ++ " edge from D layer to U layer.")
      else (c, [], desc0)
    else (c, [], desc0)
  let c1 := dres.1
  let mv1 := dres.2.1
  let desc1 := dres.2.2
  match findEdgePiece c1 t.color1 t.color2 with
  | some pos =>
    if pos.face1 = U ∨ pos.face2 = U ∨
        (isSideFace pos.face1 ∧ isSideFace pos.face2) then
      let assign :=
        if c1.get pos.face1 pos.index1 = whiteColor then
          (pos.face1, pos.index1, pos.face2, pos.index2)
        else (pos.face2, pos.index2, pos.face1, pos.index1)
      let wFace := assign.1
      let wIdx := assign.2.1
      let cFace := assign.2.2.1
      if wFace = U then
        let desc2 := desc1 ++ "Aligning and inserting " ++ edgeName t ++ " (white on U). "
        match alignColorLoop t 4 c1 cFace mv1 with
        | .error e => .error e
        | .ok (c2, mv2, cFace2) =>
          if cFace2 = t.targetFace then
            let c3 := applyMove c2 (faceStr t.targetFace)
            let c4 := applyMove c3 "U"
            let c5 := applyMove c4 (faceStr t.targetFace ++ "_PRIME")
            .ok (c5, [⟨desc2, mv2 ++ [faceStr t.targetFace, "U",
              faceStr t.targetFace ++ "_PRIME"]⟩])
          else
            let c3 := applyMove c2 (faceStr cFace2)
            let c4 := applyMove c3 "U"
            let c5 := applyMove c4 (faceStr cFace2 ++ "_PRIME")
            .ok (c5, [⟨desc2, mv2 ++ [faceStr cFace2, "U",
              faceStr cFace2 ++ "_PRIME"]⟩])
      else
        let desc2 := desc1 ++ "Aligning and inserting " ++ edgeName t ++ " (white on side). "
        match alignWhiteLoop t 4 c1 wFace mv1 with
        | .error e => .error e
        | .ok (c2, mv2, wFace2) =>
          if wFace2 = t.targetFace then
            let c3 := applyMove c2 (faceStr t.targetFace)
            let c4 := applyMove c3 (faceStr t.targetFace)
            .ok (c4, [⟨desc2, mv2 ++ [faceStr t.targetFace, faceStr t.targetFace]⟩])
          else
            if isSideFace cFace ∧ isSideFace wFace2 then
              if wFace2 = F ∧ wIdx = 5 then
                let c3 := applyMove c2 "R"
                let c4 := applyMove c3 "U"
                let c5 := applyMove c4 "R_PRIME"
                .ok (c5, [⟨desc2, mv2 ++ ["R", "U", "R_PRIME"]⟩])
              else if wFace2 = F ∧ wIdx = 3 then
                let c3 := applyMove c2 "L_PRIME"
                let c4 := applyMove c3 "U_PRIME"
                let c5 := applyMove c4 "L"
                .ok (c5, [⟨desc2, mv2 ++ ["L_PRIME", "U_PRIME", "L"]⟩])
              else .ok (c2, [⟨desc2, mv2⟩])
            else .ok (c2, [⟨desc2, mv2⟩])
    else
      let c2 := applyMove c1 "U"
      let c3 := applyMove c2 "R"
      let c4 := applyMove c3 "U_PRIME"
      let c5 := applyMove c4 "R_PRIME"
      .ok (c5, [repositionStep t, ⟨desc1, mv1 ++ ["U", "R", "U_PRIME", "R_PRIME"]⟩])
  | none =>
      let c2 := applyMove c1 "U"
      let c3 := applyMove c2 "R"
      let c4 := applyMove c3 "U_PRIME"
      let c5 := applyMove c4 "R_PRIME"
      .ok (c5, [repositionStep t, ⟨desc1, mv1 ++ ["U", "R", "U_PRIME", "R_PRIME"]⟩])

def maxAttempts : Nat := 20

structure EdgeResult where
  cube : Cube
  steps : List SolutionStep
  attempts : Nat
  crash : Option String
deriving Repr

def edgeLoopAux (t : Target) : Nat → Cube → Nat → EdgeResult
  | 0, c, attempts => ⟨c, [], attempts, none⟩
  | fuel + 1, c, attempts =>
    if c.get t.targetFace t.targetIndex = t.color1 ∧
        c.get D t.targetDFaceIndex = t.color2 then
      ⟨c, [placedStep t], attempts, none⟩
    else
      match findEdgePiece c t.color1 t.color2 with
      | none => ⟨c, [errStep t], attempts, none⟩
      | some pos0 =>
        match iterBody t c pos0 with
        | .error e => ⟨e.1, [], attempts, some e.2⟩
        | .ok (c2, iterSteps) =>
          if attempts + 1 ≥ maxAttempts then
            ⟨c2, iterSteps ++ [failStep t], attempts + 1, none⟩
          else
            let rest := edgeLoopAux t fuel c2 (attempts + 1)
            ⟨rest.cube, iterSteps ++ rest.steps, rest.attempts, rest.crash⟩

def edgeLoop (t : Target) (c : Cube) (attempts : Nat) : EdgeResult :=
  edgeLoopAux t (maxAttempts - attempts) c attempts

structure CrossResult where
  cube : Cube
  steps : List SolutionStep
  attemptCounts : List Nat
  crash : Option String
deriving Repr

def runTargets : Cube → List Target → CrossResult
  | c, [] => ⟨c, [], [], none⟩
  | c, t :: ts =>
    let r := edgeLoop t c 0
    match r.crash with
    | some e => ⟨r.cube, r.steps, [r.attempts], some e⟩
    | none =>
      let rest := runTargets r.cube ts
      ⟨rest.cube, r.steps ++ rest.steps, r.attempts :: rest.attemptCounts, rest.crash⟩

def solveWhiteCross (c : Cube) : CrossResult :=
  let r := runTargets c targets
  { r with steps := phaseStep :: (r.steps ++ if r.crash = none then [doneStep] else []) }



lemma edgeLoopAux_spec (t : Target) : ∀ fuel : Nat, ∀ c : Cube, ∀ a : Nat,
    a + fuel = maxAttempts →
    (edgeLoopAux t fuel c a).attempts ≤ maxAttempts ∧
    ((edgeLoopAux t fuel c a).crash = none →
      (edgeLoopAux t fuel c a).attempts = maxAttempts → a < maxAttempts →
      (edgeLoopAux t fuel c a).steps.getLast? = some (failStep t)) := by
  intro fuel
  induction fuel with
  | zero =>
    intro c a ha
    refine ⟨show a ≤ maxAttempts by omega, ?_⟩
    intro _ _ hlt
    exact absurd hlt (by omega)
  | succ fuel ih =>
    intro c a ha
    rw [edgeLoopAux]
    by_cases hplaced : c.get t.targetFace t.targetIndex = t.color1 ∧
        c.get D t.targetDFaceIndex = t.color2
    · rw [if_pos hplaced]
      refine ⟨show a ≤ maxAttempts by omega, ?_⟩
      intro _ h20 _
      exact absurd (show a = maxAttempts from h20) (by omega)
    · rw [if_neg hplaced]
      rcases hfind : findEdgePiece c t.color1 t.color2 with _ | pos0
      · simp only [hfind]
        refine ⟨show a ≤ maxAttempts by omega, ?_⟩
        intro _ h20 _
        exact absurd (show a = maxAttempts from h20) (by omega)
      · simp only [hfind]
        rcases hib : iterBody t c pos0 with e | pr
        · simp only [hib]
          refine ⟨show a ≤ maxAttempts by omega, ?_⟩
          intro hcr
          exact absurd (show (some e.2 : Option String) = none from hcr) (by simp)
        · simp only [hib]
          by_cases hbudget : a + 1 ≥ maxAttempts
          · rw [if_pos hbudget]
            refine ⟨show a + 1 ≤ maxAttempts by omega, ?_⟩
            intro _ _ _
            show (pr.2 ++ [failStep t]).getLast? = some (failStep t)
            exact List.getLast?_concat _
          · rw [if_neg hbudget]
            have hrec := ih pr.1 (a + 1) (by omega)
            refine ⟨hrec.1, ?_⟩
            intro hcr h20 _
            have hlast := hrec.2 hcr h20 (by omega)
            have hne : (edgeLoopAux t fuel pr.1 (a + 1)).steps ≠ [] := by
              intro hnil
              rw [hnil] at hlast
              exact absurd hlast (by simp)
            show (pr.2 ++ (edgeLoopAux t fuel pr.1 (a + 1)).steps).getLast? =
              some (failStep t)
            rw [List.getLast?_append_of_ne_nil _ hne]
            exact hlast

lemma edgeLoop_spec (t : Target) (c : Cube) (a : Nat) (ha : a ≤ maxAttempts) :
    (edgeLoop t c a).attempts ≤ maxAttempts ∧
    ((edgeLoop t c a).crash = none → (edgeLoop t c a).attempts = maxAttempts →
      a < maxAttempts → (edgeLoop t c a).steps.getLast? = some (failStep t)) :=
  edgeLoopAux_spec t (maxAttempts - a) c a (by omega)

lemma runTargets_spec : ∀ ts : List Target, ∀ c : Cube,
    (∀ n ∈ (runTargets c ts).attemptCounts, n ≤ maxAttempts) ∧
    ((runTargets c ts).crash = none →
      (runTargets c ts).attemptCounts.length = ts.length) := by
  intro ts
  induction ts with
  | nil => intro c; exact ⟨by simp [runTargets], by simp [runTargets]⟩
  | cons t ts ih =>
    intro c
    have hedge := edgeLoop_spec t c 0 (by omega)
    rw [runTargets]
    rcases hcr : (edgeLoop t c 0).crash with _ | e
    · simp only [hcr]
      refine ⟨?_, ?_⟩
      · intro n hn
        rcases List.mem_cons.mp hn with rfl | hn2
        · exact hedge.1
        · exact ((ih (edgeLoop t c 0).cube).1) n hn2
      · intro hcr2
        simp only [List.length_cons]
        rw [(ih (edgeLoop t c 0).cube).2 hcr2]
    · simp only [hcr]
      refine ⟨?_, ?_⟩
      · intro n hn
        rcases List.mem_singleton.mp hn with rfl
        exact hedge.1
      · intro hcr2
        exact absurd (show (some e : Option String) = none from hcr2) (by simp)

/-- Claim C10: for every starting cube state, the budgeted white-cross solver
terminates: each target edge's placement loop runs at most maxAttempts = 20
attempts (whatever counter value it starts from), exhausting the budget emits
the per-edge failure step as the last step of that edge's segment, and a
normally completed edge is followed by the processing of the remaining target
edges, so a crash-free run records one attempt count per target edge. -/
theorem white_cross_budget (c : Cube) :
    (∀ t : Target, ∀ a : Nat, a ≤ maxAttempts →
      (edgeLoop t c a).attempts ≤ maxAttempts ∧
      ((edgeLoop t c a).crash = none → (edgeLoop t c a).attempts = maxAttempts →
        a < maxAttempts →
        (edgeLoop t c a).steps.getLast? = some (failStep t))) ∧
    (∀ n ∈ (solveWhiteCross c).attemptCounts, n ≤ maxAttempts) ∧
    ((solveWhiteCross c).crash = none →
      (solveWhiteCross c).attemptCounts.length = targets.length) ∧
    (∀ t : Target, ∀ ts : List Target, (edgeLoop t c 0).crash = none →
      (runTargets c (t :: ts)).attemptCounts =
        (edgeLoop t c 0).attempts :: (runTargets (edgeLoop t c 0).cube ts).attemptCounts ∧
      (runTargets c (t :: ts)).steps =
        (edgeLoop t c 0).steps ++ (runTargets (edgeLoop t c 0).cube ts).steps) := by
  refine ⟨fun t a ha => edgeLoop_spec t c a ha, ?_, ?_, ?_⟩
  · have h : (solveWhiteCross c).attemptCounts = (runTargets c targets).attemptCounts := rfl
    rw [h]
    exact (runTargets_spec targets c).1
  · have h1 : (solveWhiteCross c).attemptCounts = (runTargets c targets).attemptCounts := rfl
    have h2 : (solveWhiteCross c).crash = (runTargets c targets).crash := rfl
    rw [h1, h2]
    exact (runTargets_spec targets c).2
  · intro t ts hcr
    rw [runTargets]
    simp [hcr]

set_option maxRecDepth 8192 in
theorem white_cross_budget_witness :
    (solveWhiteCross solvedCube).attemptCounts.length = targets.length :=
  (white_cross_budget solvedCube).2.2.1 (by decide)

end RubiksCube
